import Mathlib

/-!
Verification of the interactive SQLite explorer (`sqlite_cli.py`).

The Python source is shallowly embedded: Python strings become `List Char`,
the SQLite engine and the filesystem become explicit parameters (state
passing), and every fallible call is an `Except`.  Each definition below is
translated from the function of the source it names.
-/

/-- Python `str` values handled by the CLI, modelled as character lists. -/
abbrev Qry := List Char

/-- Whitespace recognized by Python's `str.strip` (ASCII subset used here). -/
def pySpace (c : Char) : Bool :=
  c == ' ' || c == '\t' || c == '\n' || c == '\r' || c == '\x0b' || c == '\x0c'

/-- Model of Python `str.strip()`: drop leading and trailing whitespace. -/
def strip (l : Qry) : Qry :=
  ((l.dropWhile pySpace).reverse.dropWhile pySpace).reverse

/-- Model of Python `str.upper()` on ASCII text. -/
def upperStr (l : Qry) : Qry := l.map Char.toUpper

/-- Model of Python `str.lower()` on ASCII text. -/
def lowerStr (l : Qry) : Qry := l.map Char.toLower

/-- The write-verb denylist of `SQLiteExplorer.execute_query`
(`sqlite_cli.py` line 51). -/
def write_keywords : List Qry :=
  ["INSERT".data, "UPDATE".data, "DELETE".data, "DROP".data,
   "CREATE".data, "ALTER".data, "TRUNCATE".data, "REPLACE".data]

/-- The read-only guard of `execute_query` (lines 50-52): the trimmed,
upper-cased query starts with a denylisted verb. -/
def is_write_blocked (q : Qry) : Bool :=
  write_keywords.any (fun k => k.isPrefixOf (upperStr (strip q)))

/-- The spec's `QueryGuard.classify` outcomes. -/
inductive Classification where
  | allowed
  | blocked
deriving DecidableEq

/-- `QueryGuard.classify`: the guard decision taken at lines 49-53. -/
def classify (q : Qry) : Classification :=
  if is_write_blocked q then Classification.blocked else Classification.allowed

/-- The message returned when the guard blocks a statement (line 53). -/
def readOnlyMsg : String :=
  "Write operations are disabled in read-only mode. Only SELECT and PRAGMA queries are allowed."

/-- The read-path test of `execute_query` (line 60): trimmed upper-cased
query starts with SELECT or PRAGMA. -/
def is_select_or_pragma (q : Qry) : Bool :=
  "SELECT".data.isPrefixOf (upperStr (strip q)) ||
  "PRAGMA".data.isPrefixOf (upperStr (strip q))

/-- The status message of the mutating path (line 65). -/
def affected_msg (rc : Int) : String :=
  "Query executed successfully. Rows affected: " ++ toString rc

/-- The SQLite engine seen by `execute_query`, abstracted: `exec` runs one
statement on the engine state (possibly failing with the engine's message,
otherwise yielding fetched rows, `cursor.rowcount` and the post-statement
state); `commit` makes pending changes durable (`conn.commit()`). -/
structure Engine (σ ρ : Type) where
  exec : σ → Qry → Except String (List ρ × Int × σ)
  commit : σ → σ

/-- `SQLiteExplorer.execute_query` (lines 46-67): guard, then run the
statement; SELECT/PRAGMA return the fetched rows, anything else is committed
and returns the affected-row status; engine errors come back as the failure
triple, never as an exception. -/
def execute_query {σ ρ : Type} (E : Engine σ ρ) (st : σ) (q : Qry)
    (read_only : Bool) : (Bool × Option (List ρ) × Option String) × σ :=
  if read_only && is_write_blocked q then
    ((false, none, some readOnlyMsg), st)
  else
    match E.exec st q with
    | Except.error e => ((false, none, some e), st)
    | Except.ok (rows, rc, st2) =>
      if is_select_or_pragma q then
        ((true, some rows, none), st2)
      else
        ((true, none, some (affected_msg rc)), E.commit st2)

/-- `SQLiteExplorer.get_table_count` (lines 81-89): the `SELECT COUNT(*)`
call is the parameter `countq`; an engine fault is suppressed and reported
as 0. -/
def get_table_count (countq : String → Except String Nat) (table : String) : Nat :=
  match countq table with
  | Except.ok n => n
  | Except.error _ => 0

/-- The row of the `tables` listing and of `display_schema`: each table name
paired with its best-effort count (lines 196-201 and 505-507). -/
def tables_listing (countq : String → Except String Nat)
    (ts : List String) : List (String × Nat) :=
  ts.map (fun t => (t, get_table_count countq t))

/-- What `display_results` (lines 92-126) emits, with terminal drawing
abstracted away: the data rows actually added to the Rich table, the
truncation notice, the LIMIT tip, and the non-truncated total line. -/
structure RenderOut (α : Type) where
  noResults : Bool
  rows : List α
  notice : Option String
  tip : Option String
  totalLine : Option String
deriving DecidableEq

/-- `display_results` (lines 92-126): empty results short-circuit; otherwise
the first `max_rows` rows are shown and, when truncated, the notice and the
LIMIT tip are printed instead of the total line. -/
def display_results {α : Type} (results : List α) (max_rows : Nat) :
    RenderOut α :=
  if results.isEmpty then
    ⟨true, [], none, none, none⟩
  else
    let total_rows := results.length
    let truncated := max_rows < total_rows
    ⟨false,
     if truncated then results.take max_rows else results,
     if truncated then
       some ("⚠ Showing first " ++ toString max_rows ++ " of " ++
             toString total_rows ++ " rows")
     else none,
     if truncated then some "Tip: Add LIMIT to your query to control results"
     else none,
     if truncated then none else some ("Total rows: " ++ toString total_rows)⟩

/-- The external calls made by `get_ocean_metadata` (lines 222-272), in
program order: `sqlite3.connect`, the `COUNT(*)` over `memories`, the inner
display-name inference (its own failures are swallowed), and `stat` for the
file size in bytes. -/
structure ProbeEnv where
  connectOk : Bool
  countResult : Except String Nat
  nameResult : Except String (Option String)
  statResult : Except String Nat

/-- The metadata dict built by `get_ocean_metadata`.  The Python dict key
`exists` is spelled `existsFlag` here. -/
structure OceanMeta where
  count : Nat
  size : String
  display_name : Option String
  existsFlag : Bool
deriving DecidableEq

/-- The success-path size string `f"{size_mb:.1f} MB"` (lines 263-267),
modelled over exact byte counts: bytes / 2^20 rounded to one decimal
(ties rounded up; the float format agrees on every value used here). -/
def size_mb_str (bytes : Nat) : String :=
  let tenths := (bytes * 10 + 524288) / 1048576
  toString (tenths / 10) ++ "." ++ toString (tenths % 10) ++ " MB"

/-- The dict returned by the catch-all `except` of `get_ocean_metadata`
(line 272). -/
def degradedMeta : OceanMeta :=
  ⟨0, "0 MB", none, false⟩

/-- `get_ocean_metadata` (lines 222-272): any failure of connect, count or
stat lands in the catch-all and yields `degradedMeta`; a failure of the
display-name inference alone is swallowed by the inner `try`. -/
def get_ocean_metadata (env : ProbeEnv) : OceanMeta :=
  if !env.connectOk then degradedMeta
  else
    match env.countResult with
    | Except.error _ => degradedMeta
    | Except.ok count =>
      let display_name :=
        match env.nameResult with
        | Except.ok d => d
        | Except.error _ => none
      match env.statResult with
      | Except.error _ => degradedMeta
      | Except.ok bytes => ⟨count, size_mb_str bytes, display_name, true⟩

/-- Whether the probe hits the catch-all `except` of `get_ocean_metadata`. -/
def probe_failed (env : ProbeEnv) : Bool :=
  !env.connectOk ||
  (match env.countResult with | Except.error _ => true | Except.ok _ => false) ||
  (match env.statResult with | Except.error _ => true | Except.ok _ => false)

/-- One child of a prefix directory as seen by `browse_ocean_directory`
(lines 284-295): its name, whether it is a directory, whether it holds an
`ocean.db`, and the probe outcomes for that file. -/
structure Candidate where
  name : String
  isDir : Bool
  hasOceanDb : Bool
  probe : ProbeEnv

/-- The candidate scan of `browse_ocean_directory` (lines 285-295): every
directory containing `ocean.db` contributes an entry with its probed
metadata. -/
def browse_scan (cands : List Candidate) : List (String × OceanMeta) :=
  cands.filterMap (fun c =>
    if c.isDir && c.hasOceanDb then some (c.name, get_ocean_metadata c.probe)
    else none)

/-- The filesystem seen by the `create` command: each path either absent or
holding a database file, abstracted to its list of tables. -/
abbrev FS := String → Option (List String)

/-- SQLite's `connect` as used by `create` (line 523): a missing file is
created as an empty database, an existing file is opened untouched. -/
def sqlite_connect (fs : FS) (path : String) : FS :=
  fun p => if p = path then some ((fs path).getD []) else fs p

/-- Outcomes of the `create` command. -/
inductive CreateOutcome where
  | aborted
  | created
  | connError
deriving DecidableEq

/-- The `create` command (lines 513-527): prompt when the path exists, abort
on decline, otherwise `sqlite3.connect` + `close` and report creation;
a connect fault is reported without touching the filesystem. -/
def create_cmd (fs : FS) (path : String) (confirm : Bool)
    (connectFails : Bool) : FS × CreateOutcome :=
  if (fs path).isSome && !confirm then (fs, CreateOutcome.aborted)
  else if connectFails then (fs, CreateOutcome.connError)
  else (sqlite_connect fs path, CreateOutcome.created)

/-- Connection events of the driver loop. -/
inductive Act where
  | openConn
  | closeConn
deriving DecidableEq

/-- What `interactive_mode` returns to `cli` (line 451-458): `None`
(exit command or end-of-input) or the `"SWITCH_DB"` signal. -/
inductive SessionSignal where
  | done
  | switchDb
deriving DecidableEq

/-- The external inputs consumed by one iteration of the `cli` driver loop
(lines 438-460): the result of `select_database` (used only when no path is
known), whether `connect` succeeds, and how the interactive session ends. -/
structure CliStep where
  selection : Option String
  connectOk : Bool
  signal : SessionSignal

/-- The connection events produced by the `cli` driver loop (lines 438-460):
a cancelled selection or a failed connect ends the program with nothing
open; a session always closes its connection before the loop either
terminates (`done`) or goes back to selection (`switchDb`). -/
def cli_trace : Option String → List CliStep → List Act
  | _, [] => []
  | some _, s :: rest =>
    if s.connectOk then
      Act.openConn :: Act.closeConn ::
        (match s.signal with
         | SessionSignal.switchDb => cli_trace none rest
         | SessionSignal.done => [])
    else []
  | none, s :: rest =>
    match s.selection with
    | none => []
    | some _ =>
      if s.connectOk then
        Act.openConn :: Act.closeConn ::
          (match s.signal with
           | SessionSignal.switchDb => cli_trace none rest
           | SessionSignal.done => [])
      else []

/-- Number of connection opens in a trace. -/
def opensCount (l : List Act) : Nat := l.count Act.openConn

/-- Number of connection closes in a trace. -/
def closesCount (l : List Act) : Nat := l.count Act.closeConn

/-- One entry of the oceans directory as seen by `select_database`
(lines 349-358). -/
structure DirEntry where
  name : String
  isDir : Bool
  oceanCount : Nat

/-- The filesystem facts consumed by one redraw of the `select_database`
root menu (lines 324-387). -/
structure MenuEnv where
  genesisExists : Bool
  baseExists : Bool
  oceansDirExists : Bool
  oceansEntries : List DirEntry

/-- The prefix scan of `select_database` (lines 349-358): single-character
subdirectories with at least one ocean. -/
def scan_prefixes (env : MenuEnv) : List (String × Nat) :=
  if env.oceansDirExists then
    env.oceansEntries.filterMap (fun e =>
      if e.isDir && e.name.length == 1 && decide (0 < e.oceanCount) then
        some (e.name, e.oceanCount)
      else none)
  else []

/-- `next_option` of `select_database` (lines 366-368): the menu number of
the custom-path entry. -/
def next_option (env : MenuEnv) : Nat := 3 + (scan_prefixes env).length

/-- The `choices` list passed to the root-menu prompt (lines 379-385). -/
def root_choices (env : MenuEnv) : List Qry :=
  (if env.genesisExists then ["1".data] else []) ++
  (if env.baseExists then ["2".data] else []) ++
  (List.range' 3 (next_option env - 2)).map (fun i => (toString i).data) ++
  ["X".data, "x".data]

/-- Model of Python `str.isdigit()` on ASCII text. -/
def is_digits (l : Qry) : Bool :=
  !l.isEmpty && l.all (fun c => c.isDigit)

/-- Model of Python `int(...)` on a decimal digit string. -/
def digits_to_nat (l : Qry) : Nat :=
  l.foldl (fun acc c => acc * 10 + (c.toNat - 48)) 0

/-- `int(choice) if choice.isdigit() else 0` (line 394). -/
def parse_choice (l : Qry) : Nat :=
  if is_digits l then digits_to_nat l else 0

/-- Where one root-menu choice sends `select_database` (lines 389-409). -/
inductive SelOutcome where
  | cancelled
  | selected (p : String)
  | browsePfx (i : Nat)
  | customPrompt
  | reloop
deriving DecidableEq

/-- The Genesis Ocean path (line 331). -/
def genesis_path : String := "/Users/mars/Dev/genesis-ocean/db/genesis-ocean-prod.db"

/-- The Base Ocean path (line 340). -/
def base_path : String := "/Users/mars/Dev/base-ocean/database/base-ocean.db"

/-- The choice dispatch of `select_database` (lines 389-409): `X`/`x`
cancels, digits select a root, a prefix directory or the custom-path
prompt, anything else redraws the menu. -/
def handle_choice (env : MenuEnv) (choice : Qry) : SelOutcome :=
  if upperStr choice = "X".data then SelOutcome.cancelled
  else
    let n := parse_choice choice
    if n = 1 ∧ env.genesisExists then SelOutcome.selected genesis_path
    else if n = 2 ∧ env.baseExists then SelOutcome.selected base_path
    else if 3 ≤ n ∧ n < next_option env then SelOutcome.browsePfx (n - 3)
    else if n = next_option env then SelOutcome.customPrompt
    else SelOutcome.reloop

/-- What `interactive_mode` does with one line of input (lines 176-213). -/
inductive LoopAct where
  | skip
  | exitLoop
  | switchDb
  | showHelp
  | showSchema
  | listTables
  | runQuery
deriving DecidableEq

/-- The input dispatch of `interactive_mode` (lines 180-205): empty input is
skipped, meta-commands are compared against the lower-cased (not trimmed)
input, and everything else is executed as a query. -/
def dispatch (q : Qry) : LoopAct :=
  if strip q = [] then LoopAct.skip
  else if lowerStr q = ".exit".data ∨ lowerStr q = ".quit".data then
    LoopAct.exitLoop
  else if lowerStr q = ".db".data ∨ lowerStr q = ".database".data then
    LoopAct.switchDb
  else if lowerStr q = ".help".data ∨ lowerStr q = ".h".data ∨
          lowerStr q = "help".data then LoopAct.showHelp
  else if lowerStr q = ".schema".data then LoopAct.showSchema
  else if lowerStr q = ".tables".data then LoopAct.listTables
  else LoopAct.runQuery

/-- The connection discipline claimed for the driver loop: at every point of
the trace at most one connection is open and none is negative, and at the
end every opened connection has been closed. -/
def ConnDiscipline (t : List Act) : Prop :=
  (∀ p q : List Act, t = p ++ q →
     closesCount p ≤ opensCount p ∧ opensCount p ≤ closesCount p + 1) ∧
  opensCount t = closesCount t

/-- A demonstration engine whose state visibly changes on every executed
statement, so that "the engine was never reached" is observable. -/
def demoEngine : Engine Nat Unit :=
  ⟨fun s _ => Except.ok ([], 0, s + 1), fun s => s + 100⟩

/-- A demonstration engine that succeeds with one fetched row. -/
def okEngine : Engine Nat Unit :=
  ⟨fun s _ => Except.ok ([()], -1, s), fun s => s⟩

/-- A probe of a corrupted 5 MB candidate: connect succeeds (SQLite opens
lazily), the `COUNT(*)` faults, the file itself is 5242880 bytes. -/
def envCorrupt : ProbeEnv :=
  ⟨true, Except.error "file is not a database",
   Except.error "file is not a database", Except.ok 5242880⟩

/-- A healthy neighbour candidate for the scan-continues statements. -/
def envHealthy : ProbeEnv :=
  ⟨true, Except.ok 5, Except.ok (some "Genesis Ocean"), Except.ok 1048576⟩

/-- The corrupted candidate directory. -/
def candCorrupt : Candidate := ⟨"C1285D07", true, true, envCorrupt⟩

/-- The healthy candidate directory scanned after the corrupted one. -/
def candHealthy : Candidate := ⟨"C99AA001", true, true, envHealthy⟩

/-- A filesystem holding one non-empty database at `test.db`. -/
def fsExisting : FS :=
  fun p => if p = "test.db" then some ["memories"] else none

/-- A two-session driver script: connect, switch database, connect, exit. -/
def scrSwitch : List CliStep :=
  [⟨some "a.db", true, SessionSignal.switchDb⟩,
   ⟨some "b.db", true, SessionSignal.done⟩]

/-- The empty catalog: no known root exists, no oceans directory. -/
def emptyCatalog : MenuEnv := ⟨false, false, false, []⟩

/-- A count oracle that faults on the FTS table and reports 5 elsewhere. -/
def countOracle : String → Except String Nat :=
  fun t => if t = "memories_fts" then Except.error "malformed database schema"
           else Except.ok 5

theorem head_eq_of_isPrefixOf_cons {a b : Char} {t u : List Char}
    (h : List.isPrefixOf (a :: t) (b :: u) = true) : a = b := by
  rw [List.isPrefixOf_cons₂, Bool.and_eq_true, beq_iff_eq] at h
  exact h.1

theorem exists_head_of_isPrefixOf {a : Char} {t u : List Char}
    (h : List.isPrefixOf (a :: t) u = true) : ∃ r, u = a :: r := by
  cases u with
  | nil => simp at h
  | cons b bs =>
    refine ⟨bs, ?_⟩
    rw [head_eq_of_isPrefixOf_cons h]

theorem write_any_head_false (c : Char) (r : List Char)
    (hI : ('I' == c) = false) (hU : ('U' == c) = false)
    (hD : ('D' == c) = false) (hC : ('C' == c) = false)
    (hA : ('A' == c) = false) (hT : ('T' == c) = false)
    (hR : ('R' == c) = false) :
    write_keywords.any (fun k => k.isPrefixOf (c :: r)) = false := by
  have e1 : "INSERT".data = 'I' :: "NSERT".data := rfl
  have e2 : "UPDATE".data = 'U' :: "PDATE".data := rfl
  have e3 : "DELETE".data = 'D' :: "ELETE".data := rfl
  have e4 : "DROP".data = 'D' :: "ROP".data := rfl
  have e5 : "CREATE".data = 'C' :: "REATE".data := rfl
  have e6 : "ALTER".data = 'A' :: "LTER".data := rfl
  have e7 : "TRUNCATE".data = 'T' :: "RUNCATE".data := rfl
  have e8 : "REPLACE".data = 'R' :: "EPLACE".data := rfl
  simp [write_keywords, e1, e2, e3, e4, e5, e6, e7, e8,
        List.isPrefixOf_cons₂, hI, hU, hD, hC, hA, hT, hR]

theorem toLower_of_pySpace {c : Char} (h : pySpace c = true) :
    Char.toLower c = c := by
  simp [pySpace] at h
  rcases h with ((((h | h) | h) | h) | h) | h <;> subst h <;> decide

theorem strip_ne_nil {l : Qry} {c : Char} (hc : c ∈ l)
    (hns : pySpace c = false) : strip l ≠ [] := by
  intro h
  unfold strip at h
  rw [List.reverse_eq_nil_iff, List.dropWhile_eq_nil_iff] at h
  have hsplit : List.takeWhile pySpace l ++ List.dropWhile pySpace l = l := by
    simp
  have hmem : c ∈ List.dropWhile pySpace l := by
    rcases List.mem_append.mp (hsplit ▸ hc) with h1 | h1
    · exact absurd (List.mem_takeWhile_imp h1) (by simp [hns])
    · exact h1
  have htrue : pySpace c = true := h c (List.mem_reverse.mpr hmem)
  rw [htrue] at hns
  exact Bool.noConfusion hns

theorem conn_discipline_nil : ConnDiscipline [] := by
  constructor
  · intro p q hpq
    have hp : p = [] := by
      cases p with
      | nil => rfl
      | cons a t => simp at hpq
    subst hp
    simp [opensCount, closesCount]
  · rfl

theorem conn_discipline_cons (t : List Act) (ih : ConnDiscipline t) :
    ConnDiscipline (Act.openConn :: Act.closeConn :: t) := by
  have ho : ∀ l : List Act, opensCount (Act.openConn :: l) = opensCount l + 1 := by
    intro l; simp [opensCount]
  have ho2 : ∀ l : List Act, opensCount (Act.closeConn :: l) = opensCount l := by
    intro l; simp [opensCount]
  have hc : ∀ l : List Act, closesCount (Act.closeConn :: l) = closesCount l + 1 := by
    intro l; simp [closesCount]
  have hc2 : ∀ l : List Act, closesCount (Act.openConn :: l) = closesCount l := by
    intro l; simp [closesCount]
  constructor
  · intro p q hpq
    cases p with
    | nil => simp [opensCount, closesCount]
    | cons a p2 =>
      rw [List.cons_append] at hpq
      injection hpq with ha htail
      subst ha
      cases p2 with
      | nil =>
        simp [opensCount, closesCount]
      | cons b p3 =>
        rw [List.cons_append] at htail
        injection htail with hb htail2
        subst hb
        have hbound := ih.1 p3 q htail2
        rw [ho, hc2, hc, ho2]
        omega
  · rw [ho, hc2, hc, ho2]
    have hbal := ih.2
    omega

/-- C1: `QueryGuard.classify` in read-only mode is exactly the
prefix-keyword denylist: a statement is Blocked iff its trimmed, upper-cased
text starts with one of INSERT, UPDATE, DELETE, DROP, CREATE, ALTER,
TRUNCATE, REPLACE; every other statement — in particular any whose trimmed,
upper-cased text starts with SELECT or PRAGMA — is Allowed. -/
theorem classify_prefix_denylist (q : Qry) :
    (classify q = Classification.blocked ↔
      ("INSERT".data.isPrefixOf (upperStr (strip q)) = true ∨
       "UPDATE".data.isPrefixOf (upperStr (strip q)) = true ∨
       "DELETE".data.isPrefixOf (upperStr (strip q)) = true ∨
       "DROP".data.isPrefixOf (upperStr (strip q)) = true ∨
       "CREATE".data.isPrefixOf (upperStr (strip q)) = true ∨
       "ALTER".data.isPrefixOf (upperStr (strip q)) = true ∨
       "TRUNCATE".data.isPrefixOf (upperStr (strip q)) = true ∨
       "REPLACE".data.isPrefixOf (upperStr (strip q)) = true)) ∧
    (("SELECT".data.isPrefixOf (upperStr (strip q)) = true ∨
      "PRAGMA".data.isPrefixOf (upperStr (strip q)) = true) →
      classify q = Classification.allowed) := by
  have hceq : classify q = Classification.blocked ↔ is_write_blocked q = true := by
    unfold classify
    cases hb : is_write_blocked q <;> simp
  have hany : is_write_blocked q = true ↔
      ("INSERT".data.isPrefixOf (upperStr (strip q)) = true ∨
       "UPDATE".data.isPrefixOf (upperStr (strip q)) = true ∨
       "DELETE".data.isPrefixOf (upperStr (strip q)) = true ∨
       "DROP".data.isPrefixOf (upperStr (strip q)) = true ∨
       "CREATE".data.isPrefixOf (upperStr (strip q)) = true ∨
       "ALTER".data.isPrefixOf (upperStr (strip q)) = true ∨
       "TRUNCATE".data.isPrefixOf (upperStr (strip q)) = true ∨
       "REPLACE".data.isPrefixOf (upperStr (strip q)) = true) := by
    simp [is_write_blocked, write_keywords, List.any_cons, List.any_nil,
          Bool.or_eq_true]
  refine ⟨hceq.trans hany, ?_⟩
  rintro (hS | hP)
  · have eS : "SELECT".data = 'S' :: "ELECT".data := rfl
    rw [eS] at hS
    obtain ⟨r, hr⟩ := exists_head_of_isPrefixOf hS
    have hfalse : is_write_blocked q = false := by
      unfold is_write_blocked
      rw [hr]
      exact write_any_head_false 'S' r (by decide) (by decide) (by decide)
        (by decide) (by decide) (by decide) (by decide)
    unfold classify
    rw [hfalse]
    simp
  · have eP : "PRAGMA".data = 'P' :: "RAGMA".data := rfl
    rw [eP] at hP
    obtain ⟨r, hr⟩ := exists_head_of_isPrefixOf hP
    have hfalse : is_write_blocked q = false := by
      unfold is_write_blocked
      rw [hr]
      exact write_any_head_false 'P' r (by decide) (by decide) (by decide)
        (by decide) (by decide) (by decide) (by decide)
    unfold classify
    rw [hfalse]
    simp

/-- C1 witness: a lower-case SELECT with surrounding whitespace is Allowed,
and a DROP statement is Blocked, by the theorem itself. -/
theorem classify_prefix_denylist_witness :
    classify "  select 1".data = Classification.allowed ∧
    classify "DROP TABLE memories".data = Classification.blocked := by
  constructor
  · exact (classify_prefix_denylist "  select 1".data).2 (Or.inl (by decide))
  · exact (classify_prefix_denylist "DROP TABLE memories".data).1.mpr
      (Or.inr (Or.inr (Or.inr (Or.inl (by decide)))))

/-- C2: a statement blocked by the read-only guard makes `execute_query`
return the failure triple carrying the restriction message, the engine state
is returned untouched, and the engine's answer to any subsequent statement
(e.g. a `SELECT COUNT(*)`) from the returned state is the same as from the
state before the blocked attempt. -/
theorem execute_query_blocked {σ ρ : Type} (E : Engine σ ρ) (st : σ) (q : Qry)
    (h : is_write_blocked q = true) :
    execute_query E st q true = ((false, none, some readOnlyMsg), st) ∧
    ∀ q2 : Qry, E.exec (execute_query E st q true).2 q2 = E.exec st q2 := by
  have hmain : execute_query E st q true = ((false, none, some readOnlyMsg), st) := by
    unfold execute_query
    rw [h]
    simp
  exact ⟨hmain, fun q2 => by rw [hmain]⟩

/-- C2 witness: `DROP TABLE memories` is blocked on a demonstration engine
whose state changes whenever a statement reaches it: the failure triple is
returned, the state is still 5, and the count query answers as before. -/
theorem execute_query_blocked_witness :
    execute_query demoEngine 5 "DROP TABLE memories".data true =
      ((false, none, some readOnlyMsg), 5) ∧
    demoEngine.exec (execute_query demoEngine 5 "DROP TABLE memories".data true).2
        "SELECT COUNT(*) FROM memories".data =
      demoEngine.exec 5 "SELECT COUNT(*) FROM memories".data := by
  have h := execute_query_blocked demoEngine 5 "DROP TABLE memories".data (by decide)
  exact ⟨h.1, h.2 "SELECT COUNT(*) FROM memories".data⟩

/-- C3: when the guard does not block, `execute_query` has exactly three
result shapes and never raises: an engine error surfaced as the failure
message, fetched rows when the trimmed upper-cased text starts with SELECT
or PRAGMA, or the immediately committed status message carrying the
affected-row count. -/
theorem execute_query_shapes {σ ρ : Type} (E : Engine σ ρ) (st : σ) (q : Qry)
    (ro : Bool) (h : (ro && is_write_blocked q) = false) :
    (∃ e, E.exec st q = Except.error e ∧
       execute_query E st q ro = ((false, none, some e), st)) ∨
    (∃ rows rc st2, E.exec st q = Except.ok (rows, rc, st2) ∧
       is_select_or_pragma q = true ∧
       execute_query E st q ro = ((true, some rows, none), st2)) ∨
    (∃ rows rc st2, E.exec st q = Except.ok (rows, rc, st2) ∧
       is_select_or_pragma q = false ∧
       execute_query E st q ro =
         ((true, none, some (affected_msg rc)), E.commit st2)) := by
  cases hE : E.exec st q with
  | error e =>
    refine Or.inl ⟨e, rfl, ?_⟩
    simp [execute_query, h, hE]
  | ok t =>
    obtain ⟨rows, rc, st2⟩ := t
    cases hS : is_select_or_pragma q with
    | true =>
      refine Or.inr (Or.inl ⟨rows, rc, st2, rfl, rfl, ?_⟩)
      simp [execute_query, h, hE, hS]
    | false =>
      refine Or.inr (Or.inr ⟨rows, rc, st2, rfl, rfl, ?_⟩)
      simp [execute_query, h, hE, hS]

/-- C3 witness: the read path of the trichotomy at a lower-case `select 1`
on an engine producing one row. -/
theorem execute_query_shapes_witness :
    (∃ e, okEngine.exec 0 "select 1".data = Except.error e ∧
       execute_query okEngine 0 "select 1".data true = ((false, none, some e), 0)) ∨
    (∃ rows rc st2, okEngine.exec 0 "select 1".data = Except.ok (rows, rc, st2) ∧
       is_select_or_pragma "select 1".data = true ∧
       execute_query okEngine 0 "select 1".data true = ((true, some rows, none), st2)) ∨
    (∃ rows rc st2, okEngine.exec 0 "select 1".data = Except.ok (rows, rc, st2) ∧
       is_select_or_pragma "select 1".data = false ∧
       execute_query okEngine 0 "select 1".data true =
         ((true, none, some (affected_msg rc)), okEngine.commit st2)) :=
  execute_query_shapes okEngine 0 "select 1".data true (by decide)

/-- C4: rendering truncates at the fixed cap of 50 rows: a result set longer
than 50 emits exactly 50 data rows plus the "Showing first 50 of M rows"
notice and the LIMIT tip; a result set of at most 50 rows is emitted whole,
with no truncation notice and no tip. -/
theorem display_results_truncation {α : Type} (results : List α) :
    (50 < results.length →
       (display_results results 50).rows.length = 50 ∧
       (display_results results 50).notice =
         some ("⚠ Showing first 50 of " ++ toString results.length ++ " rows") ∧
       (display_results results 50).tip =
         some "Tip: Add LIMIT to your query to control results") ∧
    (results.length ≤ 50 →
       (display_results results 50).rows = results ∧
       (display_results results 50).notice = none ∧
       (display_results results 50).tip = none) := by
  constructor
  · intro h
    have hne : results.isEmpty = false := by
      cases results with
      | nil => simp at h
      | cons a t => rfl
    have hD : display_results results 50 =
        ⟨false, results.take 50,
         some ("⚠ Showing first " ++ toString 50 ++ " of " ++
               toString results.length ++ " rows"),
         some "Tip: Add LIMIT to your query to control results", none⟩ := by
      simp [display_results, hne, h]
    rw [hD]
    refine ⟨?_, ?_, rfl⟩
    · simp [List.length_take]
      omega
    · rfl
  · intro h
    by_cases hnil : results.isEmpty = true
    · have hres : results = [] := List.isEmpty_iff.mp hnil
      subst hres
      exact ⟨rfl, rfl, rfl⟩
    · have hne : results.isEmpty = false := by
        rw [Bool.not_eq_true] at hnil
        exact hnil
      have hnottrunc : ¬ (50 < results.length) := by omega
      refine ⟨?_, ?_, ?_⟩ <;> simp [display_results, hne, hnottrunc]

set_option maxRecDepth 4000 in
/-- C4 witness: 120 rows render as exactly 50 data rows with the
"first 50 of 120" notice and the tip; 5 rows render whole with no notice. -/
theorem display_results_truncation_witness :
    (display_results (List.replicate 120 (0 : Nat)) 50).rows.length = 50 ∧
    (display_results (List.replicate 120 (0 : Nat)) 50).notice =
      some "⚠ Showing first 50 of 120 rows" ∧
    (display_results (List.replicate 120 (0 : Nat)) 50).tip =
      some "Tip: Add LIMIT to your query to control results" ∧
    (display_results (List.replicate 5 (0 : Nat)) 50).rows = List.replicate 5 0 ∧
    (display_results (List.replicate 5 (0 : Nat)) 50).notice = none := by
  have h1 := (display_results_truncation (List.replicate 120 (0 : Nat))).1 (by simp)
  have h2 := (display_results_truncation (List.replicate 5 (0 : Nat))).2 (by simp)
  refine ⟨h1.1, ?_, h1.2.2, h2.1, h2.2.1⟩
  exact h1.2.1.trans (by decide)

/-- C5 counterexample: on a corrupted 5242880-byte candidate the probe
returns the degraded entry whose size is the fixed string "0 MB" — not the
size computed from the file size, which would be "5.0 MB" — refuting the
claim as stated at this input. -/
theorem get_ocean_metadata_size_counterexample :
    (get_ocean_metadata envCorrupt).count = 0 ∧
    (get_ocean_metadata envCorrupt).display_name = none ∧
    (get_ocean_metadata envCorrupt).existsFlag = false ∧
    envCorrupt.statResult = Except.ok 5242880 ∧
    size_mb_str 5242880 = "5.0 MB" ∧
    (get_ocean_metadata envCorrupt).size ≠ size_mb_str 5242880 := by
  refine ⟨rfl, rfl, rfl, rfl, ?_, ?_⟩ <;> decide

/-- C5 (amended): every failing metadata probe yields the degraded-but-
present entry — count 0, fixed size string "0 MB", display name unset,
exists flag false — and the directory scan keeps that entry in place and
continues over the remaining candidates instead of omitting it or
raising. -/
theorem probe_failure_degraded_entry (env : ProbeEnv)
    (h : probe_failed env = true) :
    get_ocean_metadata env = degradedMeta ∧
    ∀ (pre post : List Candidate) (c : Candidate),
      c.isDir = true → c.hasOceanDb = true → c.probe = env →
      browse_scan (pre ++ c :: post) =
        browse_scan pre ++ (c.name, degradedMeta) :: browse_scan post := by
  have hdeg : get_ocean_metadata env = degradedMeta := by
    obtain ⟨hc, hcount, hname, hstat⟩ := env
    cases hc with
    | false => rfl
    | true =>
      cases hcount with
      | error e => rfl
      | ok n =>
        cases hstat with
        | error e => rfl
        | ok b => simp [probe_failed] at h
  refine ⟨hdeg, ?_⟩
  intro pre post c hdir hdb hprobe
  unfold browse_scan
  rw [List.filterMap_append, List.filterMap_cons]
  simp [hdir, hdb, hprobe, hdeg]

/-- C5 (amended) witness: the corrupted candidate still appears, degraded,
before its healthy neighbour in the scan. -/
theorem probe_failure_degraded_entry_witness :
    get_ocean_metadata envCorrupt = degradedMeta ∧
    browse_scan ([] ++ candCorrupt :: [candHealthy]) =
      browse_scan [] ++ (candCorrupt.name, degradedMeta) :: browse_scan [candHealthy] := by
  have h := probe_failure_degraded_entry envCorrupt (by decide)
  exact ⟨h.1, h.2 [] [candHealthy] candCorrupt rfl rfl rfl⟩

/-- C6 (code bug): `create` on an existing database asks for overwrite
confirmation, but confirming performs only `sqlite3.connect` plus `close`,
which leaves the existing contents intact — the file is never truncated to
an empty database although "created" is reported.  Declining does abort
without touching the file, and a fresh path does get an empty database. -/
theorem create_cmd_no_truncation :
    (create_cmd fsExisting "test.db" true false).2 = CreateOutcome.created ∧
    (create_cmd fsExisting "test.db" true false).1 "test.db" = some ["memories"] ∧
    some ["memories"] ≠ some ([] : List String) ∧
    (create_cmd fsExisting "test.db" false false).2 = CreateOutcome.aborted ∧
    (create_cmd fsExisting "test.db" false false).1 "test.db" = some ["memories"] ∧
    (create_cmd fsExisting "fresh.db" true false).1 "fresh.db" =
      some ([] : List String) := by
  decide

/-- C7: along every run of the driver loop the connection trace is
disciplined: in every prefix of the trace at most one connection is open
and no close happens without a matching open, and at the end of the run
every opened connection has been closed — no two connections coexist. -/
theorem cli_connection_invariant (db0 : Option String) (scr : List CliStep) :
    ConnDiscipline (cli_trace db0 scr) := by
  induction scr generalizing db0 with
  | nil =>
    have he : cli_trace db0 [] = [] := by cases db0 <;> rfl
    rw [he]
    exact conn_discipline_nil
  | cons s rest ih =>
    cases db0 with
    | none =>
      cases hsel : s.selection with
      | none =>
        have he : cli_trace none (s :: rest) = [] := by
          simp [cli_trace, hsel]
        rw [he]
        exact conn_discipline_nil
      | some d =>
        cases hco : s.connectOk with
        | false =>
          have he : cli_trace none (s :: rest) = [] := by
            simp [cli_trace, hsel, hco]
          rw [he]
          exact conn_discipline_nil
        | true =>
          cases hsig : s.signal with
          | done =>
            have he : cli_trace none (s :: rest) =
                [Act.openConn, Act.closeConn] := by
              simp [cli_trace, hsel, hco, hsig]
            rw [he]
            exact conn_discipline_cons [] conn_discipline_nil
          | switchDb =>
            have he : cli_trace none (s :: rest) =
                Act.openConn :: Act.closeConn :: cli_trace none rest := by
              simp [cli_trace, hsel, hco, hsig]
            rw [he]
            exact conn_discipline_cons _ (ih none)
    | some d0 =>
      cases hco : s.connectOk with
      | false =>
        have he : cli_trace (some d0) (s :: rest) = [] := by
          simp [cli_trace, hco]
        rw [he]
        exact conn_discipline_nil
      | true =>
        cases hsig : s.signal with
        | done =>
          have he : cli_trace (some d0) (s :: rest) =
              [Act.openConn, Act.closeConn] := by
            simp [cli_trace, hco, hsig]
          rw [he]
          exact conn_discipline_cons [] conn_discipline_nil
        | switchDb =>
          have he : cli_trace (some d0) (s :: rest) =
              Act.openConn :: Act.closeConn :: cli_trace none rest := by
            simp [cli_trace, hco, hsig]
          rw [he]
          exact conn_discipline_cons _ (ih none)

/-- C7 witness: the switch-then-exit script from a known path yields the
trace open, close, open, close: after the first open exactly one connection
is open, and the full trace is balanced. -/
theorem cli_connection_invariant_witness :
    (closesCount [Act.openConn] ≤ opensCount [Act.openConn] ∧
     opensCount [Act.openConn] ≤ closesCount [Act.openConn] + 1) ∧
    opensCount (cli_trace (some "a.db") scrSwitch) =
      closesCount (cli_trace (some "a.db") scrSwitch) := by
  have h := cli_connection_invariant (some "a.db") scrSwitch
  exact ⟨h.1 [Act.openConn] [Act.closeConn, Act.openConn, Act.closeConn]
    (by decide), h.2⟩

/-- C8: with an empty catalog — neither known root exists and no prefix
directories are present — the root menu still offers the custom-path option
(menu number 3) and the exit option, and choosing exit (either case) ends
the selection as Cancelled, returning no path. -/
theorem select_database_empty_catalog (env : MenuEnv)
    (hg : env.genesisExists = false) (hb : env.baseExists = false)
    (hp : scan_prefixes env = []) :
    root_choices env = ["3".data, "X".data, "x".data] ∧
    handle_choice env "3".data = SelOutcome.customPrompt ∧
    handle_choice env "X".data = SelOutcome.cancelled ∧
    handle_choice env "x".data = SelOutcome.cancelled := by
  have hn : next_option env = 3 := by simp [next_option, hp]
  have hup3 : ¬ (upperStr "3".data = "X".data) := by decide
  have hn3 : parse_choice "3".data = 3 := by decide
  have hupX : upperStr "X".data = "X".data := by decide
  have hupx : upperStr "x".data = "X".data := by decide
  refine ⟨?_, ?_, ?_, ?_⟩
  · unfold root_choices
    rw [hn, hg, hb]
    decide
  · simp [handle_choice, hn, hg, hb, hup3, hn3]
  · simp [handle_choice, hupX]
  · simp [handle_choice, hupx]

/-- C8 witness: the theorem at the concrete empty catalog. -/
theorem select_database_empty_catalog_witness :
    root_choices emptyCatalog = ["3".data, "X".data, "x".data] ∧
    handle_choice emptyCatalog "3".data = SelOutcome.customPrompt ∧
    handle_choice emptyCatalog "X".data = SelOutcome.cancelled ∧
    handle_choice emptyCatalog "x".data = SelOutcome.cancelled :=
  select_database_empty_catalog emptyCatalog rfl rfl (by decide)

/-- C9: `get_table_count` returns the engine-reported count when the count
query succeeds and returns 0, suppressing the fault, when it fails; a
listing over any table list therefore never loses an entry to an
uncountable table. -/
theorem get_table_count_suppresses (countq : String → Except String Nat)
    (t : String) :
    (∀ e, countq t = Except.error e → get_table_count countq t = 0) ∧
    (∀ n, countq t = Except.ok n → get_table_count countq t = n) ∧
    (∀ ts : List String, (tables_listing countq ts).length = ts.length) := by
  refine ⟨?_, ?_, ?_⟩
  · intro e he
    simp [get_table_count, he]
  · intro n hn
    simp [get_table_count, hn]
  · intro ts
    simp [tables_listing]

/-- C9 witness: the oracle faulting on the FTS table yields 0 there, 5 on a
normal table, and the two-table listing keeps both entries. -/
theorem get_table_count_suppresses_witness :
    get_table_count countOracle "memories_fts" = 0 ∧
    get_table_count countOracle "memories" = 5 ∧
    (tables_listing countOracle ["memories_fts", "memories"]).length = 2 := by
  have h1 := (get_table_count_suppresses countOracle "memories_fts").1
    "malformed database schema" rfl
  have h2 := (get_table_count_suppresses countOracle "memories").2.1 5 rfl
  have h3 := (get_table_count_suppresses countOracle "memories").2.2
    ["memories_fts", "memories"]
  exact ⟨h1, h2, h3⟩

/-- C10: meta-command recognition lowercases but does not trim, so an input
that is `.exit` or `.quit` surrounded by at least one whitespace character
is not recognized as a meta-command: the session does not terminate and the
input is dispatched to the query path. -/
theorem dispatch_untrimmed_meta (ws core ws2 : Qry)
    (hws : ∀ c ∈ ws, pySpace c = true) (hws2 : ∀ c ∈ ws2, pySpace c = true)
    (hne : ws ≠ [] ∨ ws2 ≠ [])
    (hcore : lowerStr core = ".exit".data ∨ lowerStr core = ".quit".data) :
    dispatch (ws ++ core ++ ws2) = LoopAct.runQuery := by
  have hdot : ('.' : Char) ∈ List.map Char.toLower core := by
    rcases hcore with h | h
    · have h2 : ('.' : Char) ∈ lowerStr core := by
        rw [h]
        decide
      exact h2
    · have h2 : ('.' : Char) ∈ lowerStr core := by
        rw [h]
        decide
      exact h2
  obtain ⟨a, ha_mem, ha_low⟩ := List.mem_map.mp hdot
  have hans : pySpace a = false := by
    cases hpa : pySpace a with
    | false => rfl
    | true =>
      have hfix := toLower_of_pySpace hpa
      rw [hfix] at ha_low
      subst ha_low
      exact absurd hpa (by decide)
  have hmem_s : a ∈ ws ++ core ++ ws2 := by
    simp [List.mem_append, ha_mem]
  have hstrip : ¬ (strip (ws ++ core ++ ws2) = []) := strip_ne_nil hmem_s hans
  have hsp : ∃ c ∈ lowerStr (ws ++ core ++ ws2), pySpace c = true := by
    rcases hne with h | h
    · obtain ⟨c, hc⟩ := List.exists_mem_of_ne_nil ws h
      refine ⟨Char.toLower c, ?_, ?_⟩
      · exact List.mem_map_of_mem Char.toLower (by simp [List.mem_append, hc])
      · rw [toLower_of_pySpace (hws c hc)]
        exact hws c hc
    · obtain ⟨c, hc⟩ := List.exists_mem_of_ne_nil ws2 h
      refine ⟨Char.toLower c, ?_, ?_⟩
      · exact List.mem_map_of_mem Char.toLower (by simp [List.mem_append, hc])
      · rw [toLower_of_pySpace (hws2 c hc)]
        exact hws2 c hc
  have hnotmeta : ∀ m : Qry, (∀ d ∈ m, pySpace d = false) →
      ¬ (lowerStr (ws ++ core ++ ws2) = m) := by
    intro m hm he
    obtain ⟨c, hcmem, hcsp⟩ := hsp
    rw [he] at hcmem
    rw [hm c hcmem] at hcsp
    exact Bool.noConfusion hcsp
  have h2 : ¬ (lowerStr (ws ++ core ++ ws2) = ".exit".data ∨
               lowerStr (ws ++ core ++ ws2) = ".quit".data) := by
    rintro (h | h)
    · exact hnotmeta ".exit".data (by decide) h
    · exact hnotmeta ".quit".data (by decide) h
  have h3 : ¬ (lowerStr (ws ++ core ++ ws2) = ".db".data ∨
               lowerStr (ws ++ core ++ ws2) = ".database".data) := by
    rintro (h | h)
    · exact hnotmeta ".db".data (by decide) h
    · exact hnotmeta ".database".data (by decide) h
  have h4 : ¬ (lowerStr (ws ++ core ++ ws2) = ".help".data ∨
               lowerStr (ws ++ core ++ ws2) = ".h".data ∨
               lowerStr (ws ++ core ++ ws2) = "help".data) := by
    rintro (h | h | h)
    · exact hnotmeta ".help".data (by decide) h
    · exact hnotmeta ".h".data (by decide) h
    · exact hnotmeta "help".data (by decide) h
  have h5 : ¬ (lowerStr (ws ++ core ++ ws2) = ".schema".data) :=
    hnotmeta ".schema".data (by decide)
  have h6 : ¬ (lowerStr (ws ++ core ++ ws2) = ".tables".data) :=
    hnotmeta ".tables".data (by decide)
  unfold dispatch
  rw [if_neg hstrip, if_neg h2, if_neg h3, if_neg h4, if_neg h5, if_neg h6]

/-- C10 witness: the input consisting of a leading space before `.exit` is
dispatched to the query path, not treated as the exit command. -/
theorem dispatch_untrimmed_meta_witness :
    dispatch ([' '] ++ ".exit".data ++ []) = LoopAct.runQuery :=
  dispatch_untrimmed_meta [' '] ".exit".data [] (by decide) (by decide)
    (Or.inl (by decide)) (Or.inl (by decide))
